import Mathlib

/-!
Verification of the credit-risk assessment application (`app.py`).

The numeric code operates on NumPy float arrays; here it is embedded
shallowly over exact rationals (`ℚ`), with arrays as `List ℚ`.  The
Python functions and arrays keep their source names where Lean allows.
-/

namespace CreditRisk

/-- Embeds `risk_bucket` (app.py lines 17-23): maps a probability of
default to a (label, icon) pair by strict thresholds at 0.10 and 0.25. -/
def risk_bucket (pd_val : ℚ) : String × String :=
  if pd_val < 1/10 then ("Low", "🟢")
  else if pd_val < 1/4 then ("Medium", "🟡")
  else ("High", "🔴")

/-- Embeds `feature_contributions = np.abs(data_row) * importances`
(app.py line 114), elementwise over the transformed feature vector. -/
def feature_contributions (data_row importances : List ℚ) : List ℚ :=
  List.zipWith (fun v w => |v| * w) data_row importances

/-- Embeds `total = feature_contributions.sum()` (app.py line 115). -/
def total (data_row importances : List ℚ) : ℚ :=
  (feature_contributions data_row importances).sum

/-- Embeds app.py lines 116-119: if `total > 0` then
`feature_pcts = (feature_contributions / total) * pd_val * 100`
elementwise, else `feature_pcts = np.zeros_like(feature_contributions)`. -/
def feature_pcts (data_row importances : List ℚ) (pd_val : ℚ) : List ℚ :=
  if 0 < total data_row importances then
    (feature_contributions data_row importances).map
      (fun c => c / total data_row importances * pd_val * 100)
  else
    (feature_contributions data_row importances).map (fun _ => 0)

/-- An index comparison used to model `np.argsort` in ascending direction:
index `i` comes no later than index `j` when its value is smaller, or the
values are equal and `i ≤ j`.  NumPy's default quicksort compares values
only and specifies NO relative order between equal values on larger
arrays, so the `i ≤ j` tie-break is one concrete deterministic choice of
the unspecified tie order (it is the order NumPy actually produces in the
small-array regime, below the ~16-element insertion-sort threshold, which
covers the concrete inputs evaluated here).  No theorem below relies on
this tie order except the concrete two-element counterexample. -/
def idx_le (pcts : List ℚ) (i j : Nat) : Prop :=
  pcts.getD i 0 < pcts.getD j 0 ∨ (pcts.getD i 0 = pcts.getD j 0 ∧ i ≤ j)

instance idx_le_decidable (pcts : List ℚ) : DecidableRel (idx_le pcts) :=
  fun i j => by unfold idx_le; infer_instance

/-- Embeds `sorted_idx = np.argsort(feature_pcts)[::-1]` (app.py line 152):
an ascending argsort of the percentage array, reversed.  The program
guarantees only that the result is a permutation of the indices ordered
by value; where equal values land relative to each other is unspecified
(`idx_le` fixes one executable choice, exact for small arrays). -/
def sorted_idx (pcts : List ℚ) : List Nat :=
  (List.insertionSort (idx_le pcts) (List.range pcts.length)).reverse

/-- Embeds `top_n = 5` (app.py line 153). -/
def top_n : Nat := 5

/-- Embeds the display loop of app.py lines 154-162 restricted to the
retained indices: walk the sorted index list, break once `shown >= top_n`,
skip any index whose impact is `< 0.1`, otherwise retain it and increment
`shown`. -/
def select_loop (pcts : List ℚ) : List Nat → Nat → List Nat
  | [], _ => []
  | idx :: rest, shown =>
    if top_n ≤ shown then []
    else if pcts.getD idx 0 < 1/10 then select_loop pcts rest shown
    else idx :: select_loop pcts rest (shown + 1)

/-- The indices the loop of app.py lines 156-213 retains for display. -/
def retained (pcts : List ℚ) : List Nat :=
  select_loop pcts (sorted_idx pcts) 0

/-- Character-list test: does the second list start with the first? -/
def beginsWith : List Char → List Char → Bool
  | [], _ => true
  | _ :: _, [] => false
  | a :: as, b :: bs => a == b && beginsWith as bs

/-- Character-list substring test: does the needle occur contiguously in
the haystack?  Embeds the semantics of the Python test `key in fname`. -/
def hasSub (needle : List Char) : List Char → Bool
  | [] => needle.isEmpty
  | b :: rest => beginsWith needle (b :: rest) || hasSub needle rest

/-- String substring test, the meaning of Python's `key in fname`. -/
def strHasSub (needle hay : String) : Bool :=
  hasSub needle.toList hay.toList

/-- The generic fallback suggestion of app.py line 207. -/
def fallback_suggestion : String :=
  "Improving this factor could reduce default probability."

/-- Embeds `suggestion_map` (app.py lines 122-149).  Python dictionaries
preserve insertion order, so the dict is embedded as an association list
in source order; iteration order in the lookup loop is this list order. -/
def suggestion_map : List (String × String) :=
  [("person_age", "Younger applicants tend to carry higher risk; age is not changeable but longer credit history helps."),
   ("person_income", "A higher income reduces default probability. Consider ways to increase earnings."),
   ("person_emp_length", "Longer employment tenure signals income stability to lenders."),
   ("loan_amnt", "Requesting a smaller loan amount would reduce risk exposure."),
   ("loan_int_rate", "A lower interest rate reduces repayment burden. Improving creditworthiness can help."),
   ("loan_percent_income", "Lowering the loan-to-income ratio by borrowing less or earning more reduces risk."),
   ("cb_person_cred_hist_length", "Building a longer credit history strengthens the applicant\x27s profile."),
   ("person_home_ownership_RENT", "Stable housing or home ownership may slightly reduce risk."),
   ("person_home_ownership_OWN", "Owning a home is generally positive for creditworthiness."),
   ("person_home_ownership_MORTGAGE", "Having a mortgage indicates financial commitment and stability."),
   ("person_home_ownership_OTHER", "Stable housing or home ownership may slightly reduce risk."),
   ("loan_grade_A", "This is already the best loan grade."),
   ("loan_grade_B", "Improving this factor could reduce default probability."),
   ("loan_grade_C", "Improving this factor could reduce default probability."),
   ("loan_grade_D", "A better loan grade (A–C) would significantly lower risk."),
   ("loan_grade_E", "A better loan grade (A–C) would significantly lower risk."),
   ("loan_grade_F", "A better loan grade (A–C) would significantly lower risk."),
   ("loan_grade_G", "A better loan grade (A–C) would significantly lower risk."),
   ("loan_intent_EDUCATION", "Education loans are generally viewed as investments in future earning potential."),
   ("loan_intent_MEDICAL", "Medical loans are essential; maintaining insurance coverage can reduce need."),
   ("loan_intent_VENTURE", "Improving this factor could reduce default probability."),
   ("loan_intent_PERSONAL", "Improving this factor could reduce default probability."),
   ("loan_intent_DEBTCONSOLIDATION", "Consolidating debt can be positive if it lowers overall payments."),
   ("loan_intent_HOMEIMPROVEMENT", "Home improvement loans can add value to owned property."),
   ("cb_person_default_on_file_Y", "Having a previous default significantly raises risk. Clearing obligations helps."),
   ("cb_person_default_on_file_N", "No previous default is a positive signal.")]

/-- Embeds the lookup loop of app.py lines 200-207: scan `suggestion_map`
in order for the first key that is a substring of the raw transformed
feature name; fall back to the generic suggestion when no key matches. -/
def find_suggestion (fname : String) : String :=
  match suggestion_map.find? (fun kv => strHasSub kv.1 fname) with
  | some kv => kv.2
  | none => fallback_suggestion

/-- The outcome of the explanation section: either the retained list of
(feature name, impact percent, suggestion) entries, or the single
"profile already strong" positive outcome of app.py lines 215-216. -/
inductive ExplanationOutcome where
  | contributions : List (String × ℚ × String) → ExplanationOutcome
  | strong : ExplanationOutcome
  deriving DecidableEq

/-- Embeds the explanation stage (the body of the `try` block, app.py
lines 100-216).  A length mismatch between the transformed value vector,
the importance vector and the feature-name list is the shape-mismatch
failure that the NumPy arithmetic raises; it is surfaced as an error
value.  Otherwise the retained indices are rendered with their impacts
and suggestions, or the strong-profile outcome when none is retained. -/
def explain (data_row importances : List ℚ) (feature_names : List String)
    (pd_val : ℚ) : Except String ExplanationOutcome :=
  if data_row.length = importances.length ∧
      importances.length = feature_names.length then
    let pcts := feature_pcts data_row importances pd_val
    match retained pcts with
    | [] => .ok .strong
    | r => .ok (.contributions (r.map (fun i =>
        (feature_names.getD i "", pcts.getD i 0,
         find_suggestion (feature_names.getD i "")))))
  else
    .error "shape mismatch between value, importance and name vectors"

/-- The caller-facing result of one assessment: the predicted PD, its risk
bucket, and the explanation section when it is available. -/
structure Assessment where
  pd_out : ℚ
  risk : String × String
  explanation : Option ExplanationOutcome
  deriving DecidableEq

/-- Embeds the flow of app.py lines 81-219: PD and the risk bucket are
produced before the `try` block; any exception in the explanation stage
is caught at line 218 and only suppresses the explanation section. -/
def run_assessment (data_row importances : List ℚ)
    (feature_names : List String) (pd_val : ℚ) : Assessment :=
  { pd_out := pd_val
    risk := risk_bucket pd_val
    explanation := (explain data_row importances feature_names pd_val).toOption }

/-! Theorems. -/

lemma feature_contributions_length (data_row importances : List ℚ)
    (hlen : data_row.length = importances.length) :
    (feature_contributions data_row importances).length = data_row.length := by
  simp [feature_contributions, hlen]

/-- Claim C1: with a positive total, each impact percent equals
`(|value i| * importance i / total) * PD * 100`, and a feature whose
transformed value is 0 gets impact 0 regardless of its importance. -/
theorem feature_pcts_formula (data_row importances : List ℚ) (pd_val : ℚ)
    (i : Nat) (hlen : data_row.length = importances.length)
    (hi : i < data_row.length) (ht : 0 < total data_row importances) :
    (feature_pcts data_row importances pd_val).getD i 0 =
      |data_row.getD i 0| * importances.getD i 0 /
        total data_row importances * pd_val * 100 ∧
    (data_row.getD i 0 = 0 →
      (feature_pcts data_row importances pd_val).getD i 0 = 0) := by
  have hfc := feature_contributions_length data_row importances hlen
  have h1 : i < (feature_contributions data_row importances).length := hfc ▸ hi
  have h2 : i < importances.length := hlen ▸ hi
  have key : (feature_pcts data_row importances pd_val).getD i 0 =
      |data_row.getD i 0| * importances.getD i 0 /
        total data_row importances * pd_val * 100 := by
    rw [feature_pcts, if_pos ht,
      List.getD_eq_getElem _ _ (by simpa using h1), List.getElem_map]
    have hz : (feature_contributions data_row importances)[i] =
        |data_row[i]| * importances[i] := List.getElem_zipWith
    rw [hz, List.getD_eq_getElem _ _ hi, List.getD_eq_getElem _ _ h2]
  exact ⟨key, fun h0 => by rw [key, h0]; simp⟩

/-- Witness for C1 at a concrete input: features ([2, 0] values,
[3, 5] importances, PD = 1/2). -/
theorem feature_pcts_formula_witness :
    (feature_pcts [2, 0] [3, 5] (1/2)).getD 1 0 = 0 ∧
    (feature_pcts [2, 0] [3, 5] (1/2)).getD 0 0 =
      |([2, 0] : List ℚ).getD 0 0| * ([3, 5] : List ℚ).getD 0 0 /
        total [2, 0] [3, 5] * (1/2) * 100 :=
  ⟨(feature_pcts_formula [2, 0] [3, 5] (1/2) 1 rfl (by decide)
      (by norm_num [total, feature_contributions])).2
      (by simp [List.getD_cons_succ, List.getD_cons_zero]),
   (feature_pcts_formula [2, 0] [3, 5] (1/2) 0 rfl (by decide)
      (by norm_num [total, feature_contributions])).1⟩

lemma sum_map_div_mul (l : List ℚ) (t pd_val : ℚ) :
    (l.map (fun c => c / t * pd_val * 100)).sum = l.sum / t * pd_val * 100 := by
  induction l with
  | nil => simp
  | cons a l ih => simp [ih, add_div, add_mul]

/-- Claim C2: when the total raw contribution is strictly positive, the
impact percents sum to `PD * 100` exactly (exactly over ℚ; the spec asks
for it within floating-point tolerance). -/
theorem feature_pcts_sum (data_row importances : List ℚ) (pd_val : ℚ)
    (ht : 0 < total data_row importances) :
    (feature_pcts data_row importances pd_val).sum = pd_val * 100 := by
  rw [feature_pcts, if_pos ht, sum_map_div_mul]
  have hs : (feature_contributions data_row importances).sum =
      total data_row importances := rfl
  rw [hs, div_self (ne_of_gt ht), one_mul]

/-- Witness for C2 at a concrete input. -/
theorem feature_pcts_sum_witness :
    0 < total [1] [1] ∧ (feature_pcts [1] [1] (1/2)).sum = (1/2) * 100 :=
  ⟨by norm_num [total, feature_contributions],
   feature_pcts_sum [1] [1] (1/2) (by norm_num [total, feature_contributions])⟩

/-- Claim C5: when the total raw contribution is 0, every impact percent
is set to 0 (no division is attempted); the zero vector keeps the length
of the contribution vector. -/
theorem feature_pcts_zero_total (data_row importances : List ℚ) (pd_val : ℚ)
    (ht : total data_row importances = 0) :
    (feature_pcts data_row importances pd_val).length =
      (feature_contributions data_row importances).length ∧
    ∀ x ∈ feature_pcts data_row importances pd_val, x = 0 := by
  rw [feature_pcts, if_neg (by rw [ht]; exact lt_irrefl 0)]
  refine ⟨by simp, fun x hx => ?_⟩
  obtain ⟨a, -, h⟩ := List.mem_map.mp hx
  exact h.symm

/-- Witness for C5: the all-zero transformed row. -/
theorem feature_pcts_zero_total_witness :
    total [0, 0] [1, 3] = 0 ∧
    ((feature_pcts [0, 0] [1, 3] (1/2)).length =
        (feature_contributions [0, 0] [1, 3]).length ∧
      ∀ x ∈ feature_pcts [0, 0] [1, 3] (1/2), x = 0) :=
  ⟨by norm_num [total, feature_contributions],
   feature_pcts_zero_total [0, 0] [1, 3] (1/2)
     (by norm_num [total, feature_contributions])⟩

/-- Claim C6: `risk_bucket` is Low below 0.10, Medium on [0.10, 0.25),
High at and above 0.25; the boundary values 0.10 and 0.25 fall in the
upper bucket. -/
theorem risk_bucket_thresholds (pd_val : ℚ) :
    (pd_val < 1/10 → risk_bucket pd_val = ("Low", "🟢")) ∧
    (1/10 ≤ pd_val → pd_val < 1/4 → risk_bucket pd_val = ("Medium", "🟡")) ∧
    (1/4 ≤ pd_val → risk_bucket pd_val = ("High", "🔴")) ∧
    risk_bucket (1/10) = ("Medium", "🟡") ∧
    risk_bucket (1/4) = ("High", "🔴") := by
  refine ⟨fun h => ?_, fun h1 h2 => ?_, fun h => ?_,
    by norm_num [risk_bucket], by norm_num [risk_bucket]⟩
  · rw [risk_bucket, if_pos h]
  · rw [risk_bucket, if_neg (by linarith), if_pos h2]
  · rw [risk_bucket, if_neg (by linarith), if_neg (by linarith)]

/-- Witness for C6 at concrete PDs in each bucket. -/
theorem risk_bucket_thresholds_witness :
    risk_bucket (1/20) = ("Low", "🟢") ∧
    risk_bucket (15/100) = ("Medium", "🟡") ∧
    risk_bucket (30/100) = ("High", "🔴") :=
  ⟨(risk_bucket_thresholds (1/20)).1 (by norm_num),
   (risk_bucket_thresholds (15/100)).2.1 (by norm_num) (by norm_num),
   (risk_bucket_thresholds (30/100)).2.2.1 (by norm_num)⟩

/-- Claim C10: `risk_bucket` is total over all rationals and always
returns one of the three buckets; negative inputs map to Low and inputs
above 1 map to High. -/
theorem risk_bucket_total_function (x : ℚ) :
    (risk_bucket x = ("Low", "🟢") ∨ risk_bucket x = ("Medium", "🟡") ∨
      risk_bucket x = ("High", "🔴")) ∧
    (x < 0 → risk_bucket x = ("Low", "🟢")) ∧
    (1 < x → risk_bucket x = ("High", "🔴")) := by
  refine ⟨?_, fun h => ?_, fun h => ?_⟩
  · rw [risk_bucket]; split_ifs <;> simp
  · rw [risk_bucket, if_pos (by linarith)]
  · rw [risk_bucket, if_neg (by linarith), if_neg (by linarith)]

/-- Witness for C10 at inputs outside [0, 1]. -/
theorem risk_bucket_total_function_witness :
    risk_bucket (-1) = ("Low", "🟢") ∧ risk_bucket 2 = ("High", "🔴") :=
  ⟨(risk_bucket_total_function (-1)).2.1 (by norm_num),
   (risk_bucket_total_function 2).2.2 (by norm_num)⟩

lemma select_loop_length (pcts : List ℚ) :
    ∀ (l : List Nat) (shown : Nat),
      (select_loop pcts l shown).length ≤ top_n - shown
  | [], _ => by simp [select_loop]
  | idx :: rest, shown => by
    rw [select_loop]
    split_ifs with h1 h2
    · simp
    · exact select_loop_length pcts rest shown
    · have ih := select_loop_length pcts rest (shown + 1)
      simp only [List.length_cons, top_n] at *
      omega

lemma select_loop_mem (pcts : List ℚ) :
    ∀ (l : List Nat) (shown : Nat) (i : Nat),
      i ∈ select_loop pcts l shown → 1/10 ≤ pcts.getD i 0
  | [], _, i => by simp [select_loop]
  | idx :: rest, shown, i => by
    rw [select_loop]
    split_ifs with h1 h2
    · simp
    · exact select_loop_mem pcts rest shown i
    · intro hmem
      rcases List.mem_cons.mp hmem with rfl | hm
      · exact le_of_not_lt h2
      · exact select_loop_mem pcts rest (shown + 1) i hm

/-- Claim C4: at most 5 features are retained for display, and every
retained feature has impact percent at least 0.1; features below the
noise floor are skipped. -/
theorem retained_spec (pcts : List ℚ) :
    (retained pcts).length ≤ top_n ∧
    ∀ i ∈ retained pcts, 1/10 ≤ pcts.getD i 0 :=
  ⟨by simpa using select_loop_length pcts (sorted_idx pcts) 0,
   fun i hi => select_loop_mem pcts (sorted_idx pcts) 0 i hi⟩

lemma retained_value_example : retained [50, 2, 0] = [0, 1] := by
  have h : sorted_idx [50, 2, 0] = [0, 1, 2] := by
    norm_num [sorted_idx, idx_le, List.insertionSort, List.orderedInsert,
      List.range_succ]
  norm_num [retained, h, select_loop, top_n]

/-- Witness for C4 at the concrete percentage vector [50, 2, 0]: the
member 1 is retained and its impact is at least 0.1. -/
theorem retained_spec_witness :
    (retained [50, 2, 0]).length ≤ top_n ∧
    (1 : ℚ)/10 ≤ ([50, 2, 0] : List ℚ).getD 1 0 :=
  ⟨(retained_spec [50, 2, 0]).1,
   (retained_spec [50, 2, 0]).2 1 (by rw [retained_value_example]; simp)⟩

lemma idx_le_trans (pcts : List ℚ) : ∀ a b c : Nat,
    idx_le pcts a b → idx_le pcts b c → idx_le pcts a c := by
  intro a b c hab hbc
  rcases hab with h | ⟨he, hle⟩ <;> rcases hbc with h' | ⟨he', hle'⟩
  · exact Or.inl (lt_trans h h')
  · exact Or.inl (he' ▸ h)
  · exact Or.inl (he ▸ h')
  · exact Or.inr ⟨he.trans he', le_trans hle hle'⟩

lemma idx_le_total (pcts : List ℚ) : ∀ a b : Nat,
    idx_le pcts a b ∨ idx_le pcts b a := by
  intro a b
  rcases lt_trichotomy (pcts.getD a 0) (pcts.getD b 0) with h | h | h
  · exact Or.inl (Or.inl h)
  · rcases Nat.le_total a b with hab | hba
    · exact Or.inl (Or.inr ⟨h, hab⟩)
    · exact Or.inr (Or.inr ⟨h.symm, hba⟩)
  · exact Or.inr (Or.inl h)

/-- Claim C3 (amended): `sorted_idx` is a permutation of all feature
indices with non-increasing impact percent (descending order), and it is
a pure function of the input, hence deterministic for the same inputs.
No relative order between equal impact percents is asserted: the
program's default argsort specifies none. -/
theorem sorted_idx_order (pcts : List ℚ) :
    (sorted_idx pcts).Perm (List.range pcts.length) ∧
    (sorted_idx pcts).Pairwise (fun i j =>
      pcts.getD j 0 ≤ pcts.getD i 0) := by
  have hperm : (sorted_idx pcts).Perm (List.range pcts.length) :=
    (List.reverse_perm _).trans
      (List.perm_insertionSort (idx_le pcts) (List.range pcts.length))
  refine ⟨hperm, ?_⟩
  haveI : IsTrans Nat (idx_le pcts) := ⟨idx_le_trans pcts⟩
  haveI : IsTotal Nat (idx_le pcts) := ⟨idx_le_total pcts⟩
  have hs : (List.insertionSort (idx_le pcts)
      (List.range pcts.length)).Pairwise (idx_le pcts) :=
    List.sorted_insertionSort (idx_le pcts) (List.range pcts.length)
  have hrev : (sorted_idx pcts).Pairwise (fun i j => idx_le pcts j i) := by
    rw [sorted_idx, List.pairwise_reverse]
    exact hs
  refine hrev.imp ?_
  intro i j h
  rcases h with h | ⟨he, -⟩
  · exact le_of_lt h
  · exact le_of_eq he

lemma feature_pcts_tie_example : feature_pcts [1, 1] [1, 1] (1/2) = [25, 25] := by
  have ht : 0 < total [1, 1] [1, 1] := by
    norm_num [total, feature_contributions]
  rw [feature_pcts, if_pos ht]
  norm_num [total, feature_contributions]

/-- Counterexample to claim C3 as stated: for the input where both
features get equal impact percent 25, the engine emits index 1 before
index 0, so the tie is NOT broken by ascending original index. -/
theorem sorted_idx_tie_counterexample :
    (feature_pcts [1, 1] [1, 1] (1/2)).getD 0 0 =
      (feature_pcts [1, 1] [1, 1] (1/2)).getD 1 0 ∧
    sorted_idx (feature_pcts [1, 1] [1, 1] (1/2)) = [1, 0] ∧
    sorted_idx (feature_pcts [1, 1] [1, 1] (1/2)) ≠ [0, 1] := by
  rw [feature_pcts_tie_example]
  refine ⟨by simp, ?_, ?_⟩ <;>
    norm_num [sorted_idx, idx_le, List.insertionSort, List.orderedInsert,
      List.range_succ]

lemma find_first {α : Type} (p : α → Bool) (d : α) :
    ∀ (l : List α) (i : Nat), i < l.length → p (l.getD i d) = true →
      (∀ j, j < i → p (l.getD j d) = false) →
      l.find? p = some (l.getD i d) := by
  intro l
  induction l with
  | nil => intro i hi; simp at hi
  | cons a l ih =>
    intro i hi hp hj
    cases i with
    | zero =>
      rw [List.getD_cons_zero] at hp ⊢
      exact List.find?_cons_of_pos l hp
    | succ n =>
      have ha : p a = false := by
        have := hj 0 (Nat.succ_pos n)
        rwa [List.getD_cons_zero] at this
      rw [List.find?_cons_of_neg l (by simp [ha]), List.getD_cons_succ]
      exact ih n (by simpa using hi)
        (by rwa [List.getD_cons_succ] at hp)
        (fun j hjn => by
          have := hj (j + 1) (by omega)
          rwa [List.getD_cons_succ] at this)

/-- Claim C7: the suggestion for a feature is the text of the first rule
whose key is a substring of the raw transformed feature name, in table
order; with no match the generic fallback is used; and the transformed
name containing the key "loan_grade_D" resolves to that rule's exact
text, not the fallback. -/
theorem find_suggestion_first_match :
    find_suggestion "cat__loan_grade_D" =
      "A better loan grade (A–C) would significantly lower risk." ∧
    (∀ fname : String,
      (∀ kv ∈ suggestion_map, strHasSub kv.1 fname = false) →
      find_suggestion fname = fallback_suggestion) ∧
    (∀ (fname : String) (i : Nat), i < suggestion_map.length →
      strHasSub (suggestion_map.getD i ("", "")).1 fname = true →
      (∀ j, j < i → strHasSub (suggestion_map.getD j ("", "")).1 fname = false) →
      find_suggestion fname = (suggestion_map.getD i ("", "")).2) := by
  refine ⟨by decide, fun fname hnone => ?_, fun fname i hi hp hj => ?_⟩
  · rw [find_suggestion,
      List.find?_eq_none.mpr (fun kv hkv => by simp [hnone kv hkv])]
  · rw [find_suggestion,
      find_first (fun kv => strHasSub kv.1 fname) ("", "") suggestion_map i hi
        hp hj]

/-- Witness for C7: "cat__loan_grade_D" is matched by the rule at table
index 14 and by no earlier rule, and the lookup returns that rule's text;
a name matching no key gets the fallback. -/
theorem find_suggestion_first_match_witness :
    find_suggestion "cat__loan_grade_D" = (suggestion_map.getD 14 ("", "")).2 ∧
    find_suggestion "num__credit_score" = fallback_suggestion :=
  ⟨(find_suggestion_first_match).2.2 "cat__loan_grade_D" 14 (by decide)
      (by decide) (by decide),
   (find_suggestion_first_match).2.1 "num__credit_score" (by decide)⟩

/-- Claim C8: the assessment always carries the predicted PD and its risk
bucket; when the explanation stage fails, only the explanation section is
omitted (`none`), never the prediction. -/
theorem assessment_survives_explanation_failure (data_row importances : List ℚ)
    (feature_names : List String) (pd_val : ℚ) :
    (run_assessment data_row importances feature_names pd_val).pd_out = pd_val ∧
    (run_assessment data_row importances feature_names pd_val).risk =
      risk_bucket pd_val ∧
    (∀ msg, explain data_row importances feature_names pd_val = .error msg →
      (run_assessment data_row importances feature_names pd_val).explanation =
        none) := by
  refine ⟨rfl, rfl, fun msg h => ?_⟩
  simp [run_assessment, h, Except.toOption]

/-- Witness for C8: a shape mismatch (one value, no importances, no
names) errors out of the explanation but leaves PD and bucket intact. -/
theorem assessment_survives_explanation_failure_witness :
    explain [1] [] [] (1/2) =
      .error "shape mismatch between value, importance and name vectors" ∧
    (run_assessment [1] [] [] (1/2)).explanation = none ∧
    (run_assessment [1] [] [] (1/2)).pd_out = 1/2 ∧
    (run_assessment [1] [] [] (1/2)).risk = risk_bucket (1/2) :=
  ⟨by rfl,
   (assessment_survives_explanation_failure [1] [] [] (1/2)).2.2 _ (by rfl),
   (assessment_survives_explanation_failure [1] [] [] (1/2)).1,
   (assessment_survives_explanation_failure [1] [] [] (1/2)).2.1⟩

/-- Claim C9: when no feature survives the noise-floor filtering, the
explanation is the single strong-profile outcome; the engine never
returns an empty contribution list. -/
theorem explain_strong_profile (data_row importances : List ℚ)
    (feature_names : List String) (pd_val : ℚ)
    (h1 : data_row.length = importances.length)
    (h2 : importances.length = feature_names.length) :
    (retained (feature_pcts data_row importances pd_val) = [] →
      explain data_row importances feature_names pd_val = .ok .strong) ∧
    explain data_row importances feature_names pd_val ≠
      .ok (.contributions []) := by
  have hcond : data_row.length = importances.length ∧
      importances.length = feature_names.length := ⟨h1, h2⟩
  constructor
  · intro hr
    rw [explain, if_pos hcond]
    simp only [hr]
  · rw [explain, if_pos hcond]
    cases hr : retained (feature_pcts data_row importances pd_val) with
    | nil => simp [hr]
    | cons a rest => simp [hr]

lemma retained_zero_row : retained (feature_pcts [0] [0] 0) = [] := by
  have hp : feature_pcts [0] [0] 0 = [0] := by
    norm_num [feature_pcts, total, feature_contributions]
  have hs : sorted_idx [(0 : ℚ)] = [0] := by
    norm_num [sorted_idx, idx_le, List.insertionSort, List.orderedInsert,
      List.range_succ]
  norm_num [retained, hp, hs, select_loop, top_n]

/-- Witness for C9: the all-zero transformed row retains no feature and
yields the strong-profile outcome. -/
theorem explain_strong_profile_witness :
    retained (feature_pcts [0] [0] 0) = [] ∧
    explain [0] [0] ["num__person_age"] 0 = .ok .strong :=
  ⟨retained_zero_row,
   (explain_strong_profile [0] [0] ["num__person_age"] 0 rfl rfl).1
     retained_zero_row⟩

end CreditRisk
